import Mathlib

/-!
Verification development for the HealthMateAI triage safety classifier
(`backend/app/triage_infer.py`).

The classifier is built on Python `re` pattern matching, so this file first
embeds the fragment of Python regular expressions that the source uses:
a backtracking matcher with Python's leftmost / first-alternative / greedy
vs lazy priority semantics, word boundaries, character classes and named
groups, together with a compiler from the pattern strings that appear
verbatim in the source tables.  On top of that engine the file embeds the
tokenizer, the negation scanner, the vital-sign extractors, the symptom
override table, the triage decision function and the result normalizer,
and then settles the specification claims.

Modelling notes (constraints the code itself cannot show):
* Python's `\w`, `\s`, `str.lower` are Unicode-aware; the embedding uses
  their ASCII behaviour, which coincides on every input handled here.
* Python `float` values are modelled as exact rationals; the numeric
  thresholds of the source (40.0, 38.5, 104.0, 101.5, ...) are exactly
  representable in binary floating point, so the comparisons agree for
  the decimal literals the extraction regexes produce (up to float
  rounding of extremely long decimal fractions, which no claim exercises).
* Pattern strings are written with `\x7b`/`\x7d` escapes for literal
  braces and `\x27` for apostrophes; the resulting string values are
  identical to the source's pattern strings.
-/

/-- Character classes of the regex fragment used by the source patterns. -/
inductive RChar where
  | lit (c : Char)
  | digit
  | word
  | space
  | nonspace
  | dot
  | oneOf (cs : List Char)
  deriving Repr, DecidableEq

/-- Python `\w` (ASCII fragment): letters, digits, underscore. -/
def isWordChar (c : Char) : Bool :=
  c.isAlphanum || c = '_'

/-- Python `\s` (ASCII fragment). -/
def isSpaceChar (c : Char) : Bool :=
  c = ' ' || c = '\t' || c = '\n' || c = '\r' || c = Char.ofNat 11 || c = Char.ofNat 12

/-- Does a character class accept a character (case-insensitively, since every
compiled pattern in the source carries `re.IGNORECASE`)? -/
def RChar.accepts : RChar → Char → Bool
  | .lit c, d => c.toLower = d.toLower
  | .digit, d => d.isDigit
  | .word, d => isWordChar d
  | .space, d => isSpaceChar d
  | .nonspace, d => !(isSpaceChar d)
  | .dot, d => d ≠ '\n'
  | .oneOf cs, d => cs.any (fun c => c.toLower = d.toLower)

/-- Regex abstract syntax: the fragment appearing in the source's tables.
`rep a lo hi laz` is `a{lo,hi}` (`hi = none` means unbounded), lazy when
`laz` is true; `grp` is a (possibly named) group; `wb` is `\b`. -/
inductive Re where
  | eps
  | sym (k : RChar)
  | cat (a b : Re)
  | alt (a b : Re)
  | rep (a : Re) (lo : Nat) (hi : Option Nat) (laz : Bool)
  | grp (tag : Option String) (a : Re)
  | wb
  deriving Repr, DecidableEq

/-- Matcher state: absolute position, previous character (for `\b`),
remaining input, captured groups (most recent first). -/
structure MSt where
  pos : Nat
  prev : Option Char
  rest : List Char
  caps : List (String × Nat × Nat)
  deriving Repr, DecidableEq

/-- Backtracking CPS matcher implementing Python priority semantics:
alternation prefers its left branch, greedy repetition prefers one more
iteration, lazy repetition prefers stopping.  `fuel` bounds the call
depth; every recursive call decreases it, and `mfuel` below supplies
enough for any pattern/input pair that the source can produce. -/
def mtch : Nat → Re → MSt → (MSt → Option MSt) → Option MSt
  | 0, _, _, _ => none
  | _ + 1, .eps, st, k => k st
  | _ + 1, .wb, st, k =>
    let pw := match st.prev with | some c => isWordChar c | none => false
    let nw := match st.rest with | c :: _ => isWordChar c | [] => false
    if pw ≠ nw then k st else none
  | _ + 1, .sym kc, st, k =>
    match st.rest with
    | [] => none
    | c :: cs =>
      if kc.accepts c then
        k { pos := st.pos + 1, prev := some c, rest := cs, caps := st.caps }
      else none
  | fuel + 1, .cat a b, st, k => mtch fuel a st (fun st2 => mtch fuel b st2 k)
  | fuel + 1, .alt a b, st, k =>
    match mtch fuel a st k with
    | some r => some r
    | none => mtch fuel b st k
  | fuel + 1, .grp tag a, st, k =>
    let p0 := st.pos
    mtch fuel a st (fun st2 =>
      k { st2 with caps := match tag with
            | some n => (n, p0, st2.pos) :: st2.caps
            | none => st2.caps })
  | fuel + 1, .rep a lo hi laz, st, k =>
    match hi with
    | some 0 => k st
    | _ =>
      if lo ≠ 0 then
        mtch fuel a st (fun st2 =>
          mtch fuel (.rep a (lo - 1) (hi.map (· - 1)) laz) st2 k)
      else
        let once : (MSt → Option MSt) → Option MSt := fun kk =>
          mtch fuel a st (fun st2 =>
            if st.pos < st2.pos then
              mtch fuel (.rep a 0 (hi.map (· - 1)) laz) st2 kk
            else none)
        if laz then
          match k st with
          | some r => some r
          | none => once k
        else
          match once k with
          | some r => some r
          | none => k st

/-- Node count of a regex, used to size the matcher fuel. -/
def reSize : Re → Nat
  | .eps => 1
  | .sym _ => 1
  | .cat a b => reSize a + reSize b + 1
  | .alt a b => reSize a + reSize b + 1
  | .rep a _ hi _ => reSize a + 1 + (match hi with | some h => h | none => 0)
  | .grp _ a => reSize a + 1
  | .wb => 1

/-- Fuel that over-approximates the matcher call depth for pattern `e`
on an input with `n` remaining characters. -/
def mfuel (e : Re) (n : Nat) : Nat :=
  (reSize e + 2) * (n + 2) + 8

/-- A regex match: start/end positions and named-group captures. -/
structure RMtch where
  mstart : Nat
  mend : Nat
  caps : List (String × Nat × Nat)
  deriving Repr, DecidableEq

/-- Try to match `e` anchored at state `(pos, prev, rest)`. -/
def matchAtState (e : Re) (pos : Nat) (prev : Option Char) (rest : List Char) :
    Option MSt :=
  mtch (mfuel e rest.length) e { pos := pos, prev := prev, rest := rest, caps := [] } some

/-- Scan forward from `(pos, prev, rest)` for the leftmost match of `e`
(the semantics of Python `re.search` relative to a suffix). -/
def scanFrom (e : Re) : Nat → Option Char → List Char → Option RMtch
  | pos, prev, [] =>
    match matchAtState e pos prev [] with
    | some st => some ⟨pos, st.pos, st.caps⟩
    | none => none
  | pos, prev, c :: cs =>
    match matchAtState e pos prev (c :: cs) with
    | some st => some ⟨pos, st.pos, st.caps⟩
    | none => scanFrom e (pos + 1) (some c) cs

/-- The previous character and remaining suffix at absolute position `p`. -/
def dropTo (text : List Char) (p : Nat) : Option Char × List Char :=
  if p = 0 then (none, text) else (text.get? (p - 1), text.drop p)

/-- All non-overlapping matches from position `pos`, as Python `re.finditer`:
after a match the scan resumes at its end (or one further for an empty
match).  `fuel` bounds the number of matches; positions strictly increase,
so `text.length + 2` suffices. -/
def finditerFrom (e : Re) (text : List Char) : Nat → Nat → List RMtch
  | 0, _ => []
  | fuel + 1, pos =>
    let pr := dropTo text pos
    match scanFrom e pos pr.1 pr.2 with
    | none => []
    | some m =>
      let nxt := if m.mstart < m.mend then m.mend else m.mstart + 1
      m :: finditerFrom e text fuel nxt

/-- Python `re.finditer` over the whole text. -/
def reFinditer (e : Re) (text : List Char) : List RMtch :=
  finditerFrom e text (text.length + 2) 0

/-- Python `re.search`: the leftmost match, if any. -/
def reSearch (e : Re) (text : List Char) : Option RMtch :=
  scanFrom e 0 none text

/-- Look up a named group capture in a match (most recent capture wins,
as in Python). -/
def capSpan (m : RMtch) (tag : String) : Option (Nat × Nat) :=
  (m.caps.find? (fun c => c.1 = tag)).map (·.2)

/-- The slice `text[s:e]`. -/
def sliceStr (text : List Char) (s e : Nat) : List Char :=
  (text.drop s).take (e - s)

/-- Literal open brace (written via code point to keep pattern strings plain). -/
def braceL : Char := Char.ofNat 123

/-- Literal close brace. -/
def braceR : Char := Char.ofNat 125

/-- Numeric value of a digit run. -/
def digitsVal (cs : List Char) : Nat :=
  cs.foldl (fun a c => a * 10 + (c.toNat - 48)) 0

/-- Sequence two regexes, collapsing a trailing epsilon. -/
def seqCat (a b : Re) : Re :=
  match b with
  | .eps => a
  | _ => .cat a b

/-- Attach a parsed quantifier (with optional lazy marker) to an atom. -/
def pQuant (a : Re) (cs : List Char) : Re × List Char :=
  match cs with
  | '?' :: '?' :: r => (.rep a 0 (some 1) true, r)
  | '?' :: r => (.rep a 0 (some 1) false, r)
  | '*' :: '?' :: r => (.rep a 0 none true, r)
  | '*' :: r => (.rep a 0 none false, r)
  | '+' :: '?' :: r => (.rep a 1 none true, r)
  | '+' :: r => (.rep a 1 none false, r)
  | c :: r =>
    if c = braceL then
      let lod := r.span (·.isDigit)
      let lo := digitsVal lod.1
      match lod.2 with
      | ',' :: r2 =>
        let hid := r2.span (·.isDigit)
        let hi : Option Nat := if hid.1 = [] then none else some (digitsVal hid.1)
        match hid.2 with
        | c2 :: '?' :: r3 => if c2 = braceR then (.rep a lo hi true, r3) else (a, cs)
        | c2 :: r3 => if c2 = braceR then (.rep a lo hi false, r3) else (a, cs)
        | [] => (a, cs)
      | c2 :: r2 => if c2 = braceR then (.rep a lo (some lo) false, r2) else (a, cs)
      | [] => (a, cs)
    else (a, cs)
  | [] => (a, cs)

mutual

/-- Parse an alternation (`a|b|...`). -/
def pAlt : Nat → List Char → Option (Re × List Char)
  | 0, _ => none
  | fuel + 1, cs => do
    let (r, cs1) ← pSeq fuel cs
    match cs1 with
    | '|' :: cs2 => do
      let (r2, cs3) ← pAlt fuel cs2
      pure (.alt r r2, cs3)
    | _ => pure (r, cs1)

/-- Parse a concatenation of quantified atoms, stopping at `|`, `)` or end. -/
def pSeq : Nat → List Char → Option (Re × List Char)
  | 0, _ => none
  | fuel + 1, cs =>
    match cs with
    | [] => pure (.eps, [])
    | c :: _ =>
      if c = ')' || c = '|' then pure (.eps, cs)
      else do
        let (a, cs1) ← pAtom fuel cs
        let aq := pQuant a cs1
        let (b, cs3) ← pSeq fuel aq.2
        pure (seqCat aq.1 b, cs3)

/-- Parse one atom: a group `(...)`, `(?:...)`, `(?P<name>...)`, a character
class `[...]`, an escape, `.`, or a literal character. -/
def pAtom : Nat → List Char → Option (Re × List Char)
  | 0, _ => none
  | fuel + 1, cs =>
    match cs with
    | [] => none
    | '(' :: '?' :: ':' :: cs1 => do
      let (r, cs2) ← pAlt fuel cs1
      match cs2 with
      | ')' :: cs3 => pure (.grp none r, cs3)
      | _ => none
    | '(' :: '?' :: 'P' :: '<' :: cs1 => do
      let nm := cs1.span (· ≠ '>')
      match nm.2 with
      | '>' :: cs2 => do
        let (r, cs3) ← pAlt fuel cs2
        match cs3 with
        | ')' :: cs4 => pure (.grp (some (String.mk nm.1)) r, cs4)
        | _ => none
      | _ => none
    | '(' :: cs1 => do
      let (r, cs2) ← pAlt fuel cs1
      match cs2 with
      | ')' :: cs3 => pure (.grp none r, cs3)
      | _ => none
    | '[' :: cs1 =>
      let its := cs1.span (· ≠ ']')
      match its.2 with
      | ']' :: cs2 => pure (.sym (.oneOf its.1), cs2)
      | _ => none
    | '\\' :: 'b' :: cs1 => pure (.wb, cs1)
    | '\\' :: 'd' :: cs1 => pure (.sym .digit, cs1)
    | '\\' :: 'w' :: cs1 => pure (.sym .word, cs1)
    | '\\' :: 's' :: cs1 => pure (.sym .space, cs1)
    | '\\' :: 'S' :: cs1 => pure (.sym .nonspace, cs1)
    | '\\' :: d :: cs1 => pure (.sym (.lit d), cs1)
    | '\\' :: [] => none
    | '.' :: cs1 => pure (.sym .dot, cs1)
    | c :: cs1 =>
      if c = '*' || c = '+' || c = '?' || c = ')' || c = '|' then none
      else pure (.sym (.lit c), cs1)

end

/-- Compile a pattern string to a regex, `none` on a syntax error. -/
def parseRe (s : String) : Option Re :=
  match pAlt (s.length * 4 + 16) s.data with
  | some (r, []) => some r
  | _ => none

/-- Compile a pattern string, defaulting to `eps` (the companion lemma
`all_source_patterns_compile` below checks that every pattern string of the
source tables actually parses, so the default is never exercised). -/
def reOf (s : String) : Re :=
  (parseRe s).getD .eps

/-- Python `str.lower` (ASCII fragment). -/
def pyLower (s : String) : String :=
  String.mk (s.data.map Char.toLower)

/-- Python `str.find(sub, start)`: smallest index `≥ start` where `sub`
occurs, `-1` if absent; a negative `start` counts from the end, clamped
at 0. -/
def pyFindI (s sub : List Char) (start : Int) : Int :=
  let st : Nat := if start < 0 then (max ((s.length : Int) + start) 0).toNat else start.toNat
  match (List.range (s.length + 1)).find? (fun i => decide (st ≤ i) && sub.isPrefixOf (s.drop i)) with
  | some i => (i : Int)
  | none => -1

/-- Python `sub in s` substring test. -/
def pyContains (s sub : String) : Bool :=
  0 ≤ pyFindI s.data sub.data 0

/-- Helper for `pyReplace`: replace left-to-right, non-overlapping.
Each step consumes at least one character, so `fuel = s.length` suffices. -/
def replFrom : Nat → List Char → List Char → List Char → List Char
  | 0, s, _, _ => s
  | f + 1, s, pat, rep =>
    match s with
    | [] => []
    | c :: cs =>
      if pat ≠ [] && pat.isPrefixOf s then rep ++ replFrom f (s.drop pat.length) pat rep
      else c :: replFrom f cs pat rep

/-- Python `str.replace` (all non-overlapping occurrences, left to right). -/
def pyReplace (s pat rep : String) : String :=
  String.mk (replFrom s.data.length s.data pat.data rep.data)

/-- Negation cue patterns (`NEGATIONS` in the source). -/
def NEGATIONS : List String := [
  "\\bno\\b", "\\bnot\\b", "\\bdenies?\\b", "\\bwithout\\b", "\\bnone\\b",
  "\\bnever\\b", "\\babsence of\\b", "\\bdoesn\x27?t\\b", "\\bdoes not\\b"
]

/-- Tokens before a match that can negate it (`NEGATION_WINDOW`). -/
def NEGATION_WINDOW : Nat := 6

/-- Global emergency patterns (`EMERGENCY_PATTERNS` in the source). -/
def EMERGENCY_PATTERNS : List String := [
  "\\b(crushing|severe)\\s+chest pain\\b",
  "\\bchest pain (radiating|shooting) (to )?(left )?(arm|jaw|back)\\b",
  "\\b(shortness of breath|difficulty breathing|can\x27?t breathe|cannot breathe|gasping|labou?r(ed)? breathing|breathless|dyspnea)\\b",
  "\\bblue lips?\\b",
  "\\b(unresponsive|unconscious|coma|not waking up|can\x27?t wake up)\\b",
  "\\bfaint(ing)?\\b",
  "\\b(confusion|disoriented|altered mental status)\\b",
  "\\b(stroke|face droop|arm weakness|speech (trouble|difficulty)|aphasia|one[- ]sided weakness)\\b",
  "\\b(seizure|fits?|convulsion|status epilepticus)\\b",
  "\\b(sudden|thunderclap)\\s+(headache|worst headache of (my|your) life)\\b",
  "\\buncontrolled bleeding|bleeding won\x27?t stop\\b",
  "\\b(vomiting|throwing up)\\s+(blood|coffee[- ]grounds?)\\b",
  "\\b(black|tarry)\\s+stools?\\b",
  "\\bbloody stools?\\b",
  "\\b(sepsis|septic shock|shock state|cold and clammy)\\b",
  "\\b(anaphylaxis|allergic shock)\\b",
  "\\b(swelling of (face|lips|tongue)|throat closing)\\b",
  "\\b(severe|tearing)\\s+abdominal pain\\b",
  "\\b(rigid|board[- ]like)\\s+abdomen\\b",
  "\\buncontrolled vomiting\\b",
  "\\bcough(ing)?\\s+blood\\b",
  "\\b(sudden|acute)\\s+(vision loss|blindness|loss of vision)\\b",
  "\\bchemical\\s+(in|to)\\s+eye\\b",
  "\\b(painful|red)\\s+eye\\s+with\\s+vision\\s+changes?\\b",
  "\\b(pregnan(t|cy)).*(heavy bleeding|passing clots|severe abdominal pain|shoulder tip pain)\\b",
  "\\b(sudden|severe)\\s+testicular pain\\b",
  "\\bpoison(ing)?|overdose|toxin exposure\\b",
  "\\b(major|high[- ]speed|severe)\\s+trauma\\b",
  "\\b(very|prolonged|continuous)\\s+(sleep|sleepiness|drowsiness|lethargy|hard to wake)\\b"
]

/-- Global moderate patterns (`MODERATE_PATTERNS` in the source). -/
def MODERATE_PATTERNS : List String := [
  "\\bworsening symptoms?\\b",
  "\\bsevere headache\\b",
  "\\bear pain\\b",
  "\\b(chest tightness|tight chest)\\b",
  "\\bwheez(e|ing)\\b",
  "\\bpregnan(t|cy)\\b",
  "\\bimmunocompromised|on chemotherapy|steroid therapy\\b",
  "\\binfant|newborn|elderly|older adult\\b",
  "\\b(dehydrated|dehydration|very dry mouth|no urine|dark urine)\\b",
  "\\b(new|sudden)\\s+chest pain\\b",
  "\\bproductive cough\\b",
  "\\bhigh blood pressure\\b",
  "\\bpersistent vomiting\\b",
  "\\bpain with urination\\b",
  "\\bback pain with fever\\b"
]

/-- The token pattern `\w+|\S` (`_token_re` in the source). -/
def tokenPat : String := "\\w+|\\S"

/-- `_tokenize`: all matches of `\w+|\S`, as strings. -/
def pyTokenize (text : String) : List String :=
  (reFinditer (reOf tokenPat) text.data).map
    (fun m => String.mk (sliceStr text.data m.mstart m.mend))

/-- The lower-cased window of (up to) `NEGATION_WINDOW` tokens immediately
preceding token index `i`, joined by spaces — the text `_is_negated`
scans for cues (`" ".join(tokens[max(0, i - 6):i]).lower()`). -/
def negWindow (tokens : List String) (i : Nat) : String :=
  let left := i - NEGATION_WINDOW
  pyLower (String.intercalate " " ((tokens.drop left).take (i - left)))

/-- `_is_negated`: does any negation cue occur in the preceding window? -/
def isNegated (tokens : List String) (i : Nat) : Bool :=
  NEGATIONS.any (fun n => (reSearch (reOf n) (negWindow tokens i).data).isSome)

/-- The `char_to_tok` table of `_find_unnegated`: for each token (in order)
its start/end character offsets, recomputed with `text.find(tok, pos)`. -/
def charToTokAux (text : List Char) : List (List Char) → Nat → Int → List (Int × Int × Nat)
  | [], _, _ => []
  | t :: ts, i, pos =>
    let st := pyFindI text t pos
    let en := st + (t.length : Int)
    (st, en, i) :: charToTokAux text ts (i + 1) en

/-- Resolve a match start offset to its token index (first table entry whose
range contains it; 0 when none does), as the loop in `_find_unnegated`. -/
def tokIdxOf (ctt : List (Int × Int × Nat)) (sc : Nat) : Nat :=
  match ctt.find? (fun c => decide (c.1 ≤ (sc : Int)) && decide ((sc : Int) < c.2.1)) with
  | some c => c.2.2
  | none => 0

/-- `_find_unnegated`: does `pat` have an occurrence in `text` whose start
token is not negated? -/
def findUnnegated (pat : String) (text : String) : Bool :=
  let tokens := pyTokenize text
  let ctt := charToTokAux text.data (tokens.map String.data) 0 0
  (reFinditer (reOf pat) text.data).any
    (fun m => !(isNegated tokens (tokIdxOf ctt m.mstart)))

/-- `_contains_any_unnegated`. -/
def containsAnyUnnegated (pats : List String) (text : String) : Bool :=
  pats.any (fun p => findUnnegated p text)

/-- Value of a decimal literal `\d+(\.\d+)?` as an exact rational
(Python `float(...)` on the captured group): integer part `i` and
fractional digits `f` yield `(i * 10^k + f) / 10^k`.  Built with `mkRat`
so that the definition evaluates by kernel reduction. -/
def parseDec (cs : List Char) : ℚ :=
  let ip := cs.span (· ≠ '.')
  let frac := ip.2.drop 1
  mkRat (digitsVal ip.1 * 10 ^ frac.length + digitsVal frac) (10 ^ frac.length)

/-- Captured group of a match as a rational (`float(m.group(tag))`). -/
def capQ (text : String) (tag : String) (m : RMtch) : Option ℚ :=
  (capSpan m tag).map (fun p => parseDec (sliceStr text.data p.1 p.2))

/-- Captured group of a match as an integer (`int(m.group(tag))`). -/
def capZ (text : String) (tag : String) (m : RMtch) : Option Int :=
  (capSpan m tag).map (fun p => (digitsVal (sliceStr text.data p.1 p.2) : Int))

/-- `TEMP_C_RE`. -/
def TEMP_C_RE : String := "(?P<val>\\d+(?:\\.\\d+)?)\\s*°?\\s*c\\b"

/-- `TEMP_F_RE`. -/
def TEMP_F_RE : String := "(?P<val>\\d+(?:\\.\\d+)?)\\s*°?\\s*f\\b"

/-- `SPO2_RE`. -/
def SPO2_RE : String := "(spo2|oxygen\\s*(saturation|sat)).\x7b0,8\x7d?(?P<val>\\d\x7b2,3\x7d)\\s*%?"

/-- `HR_RE`. -/
def HR_RE : String := "\\b(hr|heart\\s*rate|pulse)\\b.\x7b0,6\x7d?(?P<val>\\d\x7b2,3\x7d)\\b"

/-- `BP_RE`. -/
def BP_RE : String := "\\b(bp|blood\\s*pressure)\\b.*?(?P<sys>\\d\x7b2,3\x7d)\\s*/\\s*(?P<dia>\\d\x7b2,3\x7d)"

/-- `GLUCOSE_RE`. -/
def GLUCOSE_RE : String := "\\b(glucose|sugar|blood sugar)\\b.*?(?P<val>\\d\x7b2,4\x7d)\\b"

/-- `DAYS_RE`. -/
def DAYS_RE : String := "(?P<val>\\d+)\\s*(days?|d)\\b"

/-- `_extract_temp`: the `{"C": …, "F": …}` dictionary as a pair
(Celsius value, Fahrenheit value). -/
def extractTemp (text : String) : Option ℚ × Option ℚ :=
  ((reSearch (reOf TEMP_C_RE) text.data).bind (capQ text "val"),
   (reSearch (reOf TEMP_F_RE) text.data).bind (capQ text "val"))

/-- `_extract_spo2`. -/
def extractSpo2 (text : String) : Option ℚ :=
  (reSearch (reOf SPO2_RE) text.data).bind (capQ text "val")

/-- `_extract_hr`. -/
def extractHr (text : String) : Option ℚ :=
  (reSearch (reOf HR_RE) text.data).bind (capQ text "val")

/-- `_extract_bp`: systolic and diastolic values (`(None, None)` when the
pattern is absent). -/
def extractBp (text : String) : Option Int × Option Int :=
  match reSearch (reOf BP_RE) text.data with
  | none => (none, none)
  | some m => (capZ text "sys" m, capZ text "dia" m)

/-- `_extract_glucose`. -/
def extractGlucose (text : String) : Option Int :=
  (reSearch (reOf GLUCOSE_RE) text.data).bind (capZ text "val")

/-- `_duration_days_gt_3`: true when any `\d+ day(s)/d` match exceeds 3,
or one of the literal duration phrases occurs. -/
def durationDaysGt3 (text : String) : Bool :=
  ((reFinditer (reOf DAYS_RE) text.data).any (fun m =>
      match capZ text "val" m with
      | some v => decide (3 < v)
      | none => false))
  || pyContains text "fever > 3 days"
  || pyContains text "more than 3 days"
  || pyContains text "over 3 days"

/-- One entry of the `SYMPTOM_OVERRIDES` table. -/
structure OverrideRule where
  name : String
  term : String
  emergency : List String
  doctor : List String
  dflt : String
  deriving Repr, DecidableEq

/-- The `SYMPTOM_OVERRIDES` table (order is rule priority). -/
def SYMPTOM_OVERRIDES : List OverrideRule := [
  { name := "headache",
    term := "\\bheadaches?\\b",
    emergency := ["\\b(sudden|thunderclap)\\s+headache\\b",
                  "\\bworst headache of (my|your) life\\b",
                  "\\b(stroke|face droop|arm weakness|speech (trouble|difficulty)|seizure|stiff neck with fever)\\b"],
    doctor := ["\\bpersistent headache\\b",
               "\\bheadache (for|x)\\s*\\d+\\s*(days?|d)\\b",
               "\\bheadache with (fever|vomiting|vision changes?)\\b",
               "\\bheadache (in|during)\\s+pregnan(cy|t)\\b",
               "\\bpost[- ](head )?(injury|trauma)\\b",
               "\\bworse in the morning\\b"],
    dflt := "self-care" },
  { name := "cough",
    term := "\\bcough(ing)?\\b",
    emergency := ["\\bcough(ing)?\\s+blood\\b",
                  "\\b(shortness of breath|difficulty breathing|blue lips?)\\b"],
    doctor := ["\\bpersistent cough\\b",
               "\\bcough\\b.*\\b\\d+\\s*(days?|d)\\b",
               "\\bproductive cough\\b",
               "\\bwheez(e|ing)\\b",
               "\\bchest tightness\\b",
               "\\bfever\\b.*\\b(>|\\b(?:greater|over))\\s*3\\s*days\\b"],
    dflt := "self-care" },
  { name := "sore throat",
    term := "\\b(sore throat|throat pain|throat ache)\\b",
    emergency := ["\\b(throat closing|trouble breathing|drooling|can\x27?t swallow)\\b"],
    doctor := ["\\bfever\\b.*\\b(>|\\b(?:greater|over))\\s*3\\s*days\\b",
               "\\bwhite patches\\b",
               "\\bpersistent severe pain\\b",
               "\\bear pain\\b"],
    dflt := "self-care" },
  { name := "runny nose",
    term := "\\b(runny nose|nasal congestion|stuffy nose|sneez(ing|e))\\b",
    emergency := [],
    doctor := ["\\bfever\\b.*\\b(>|\\b(?:greater|over))\\s*3\\s*days\\b",
               "\\bsevere facial pain\\b",
               "\\bsinus\\b.*\\bpain\\b"],
    dflt := "self-care" },
  { name := "nausea/vomiting",
    term := "\\b(nausea|vomit(ing)?)\\b",
    emergency := ["\\b(vomiting|throwing up)\\s+(blood|coffee[- ]grounds?)\\b",
                  "\\buncontrolled vomiting\\b",
                  "\\bsigns of shock\\b",
                  "\\b(severe|tearing)\\s+abdominal pain\\b"],
    doctor := ["\\bpersistent vomiting\\b",
               "\\bvomiting\\b.*\\b\\d+\\s*(days?|d)\\b",
               "\\bdehydration|very dry mouth|no urine|dark urine\\b"],
    dflt := "self-care" },
  { name := "diarrhea",
    term := "\\bdiarrh(oe|e)a\\b",
    emergency := ["\\bbloody stools?\\b", "\\b(black|tarry)\\s+stools?\\b", "\\bsigns of shock\\b"],
    doctor := ["\\bpersistent diarrhea\\b",
               "\\bdiarrh(oe|e)a\\b.*\\b\\d+\\s*(days?|d)\\b",
               "\\bdehydration|very dry mouth|no urine|dark urine\\b",
               "\\bback pain with fever\\b"],
    dflt := "self-care" },
  { name := "abdominal pain",
    term := "\\babdominal pain|stomach ache|stomach pain\\b",
    emergency := ["\\b(severe|tearing)\\s+abdominal pain\\b", "\\b(rigid|board[- ]like)\\s+abdomen\\b"],
    doctor := ["\\bpain (worse|worsening)\\b", "\\bpain with fever\\b", "\\bpersistent pain\\b"],
    dflt := "self-care" },
  { name := "back pain",
    term := "\\bback pain\\b",
    emergency := ["\\b(saddle anesthesia|loss of bowel|loss of bladder|urinary retention)\\b",
                  "\\bsevere weakness\\b"],
    doctor := ["\\bpersistent back pain\\b", "\\bback pain with fever\\b", "\\bradiating to leg\\b"],
    dflt := "self-care" },
  { name := "dizziness",
    term := "\\bdizz(y|iness)|lightheaded(ness)?\\b",
    emergency := ["\\b(stroke|face droop|arm weakness|speech trouble)\\b",
                  "\\bchest pain\\b",
                  "\\bunconscious|faint(ing)?\\b"],
    doctor := ["\\bpersistent dizziness\\b", "\\bworsening\\b", "\\bwith headache\\b"],
    dflt := "self-care" },
  { name := "rash",
    term := "\\brash\\b",
    emergency := ["\\b(swelling of (face|lips|tongue)|throat closing)\\b",
                  "\\brash\\b.*\\bwith\\b.*\\bbreathing\\b",
                  "\\b(stiff neck with fever)\\b"],
    doctor := ["\\bpainful\\b", "\\bspreading\\b", "\\bwith fever\\b", "\\bblistering\\b", "\\binfected\\b"],
    dflt := "self-care" },
  { name := "urinary symptoms",
    term := "\\b(pain with urination|burning urination|dysuria|frequent urination)\\b",
    emergency := ["\\bconfusion\\b"],
    doctor := ["\\bback pain with fever\\b", "\\bpregnan(t|cy)\\b", "\\bpersistent\\b"],
    dflt := "doctor" },
  { name := "toothache",
    term := "\\btooth ache|toothache|dental pain\\b",
    emergency := ["\\bswelling\\b.*\\bbreathing\\b"],
    doctor := ["\\bpersistent\\b", "\\bfever\\b", "\\bswelling\\b"],
    dflt := "doctor" }
]

/-- The per-rule decision of `_apply_symptom_overrides` once a rule's
detector has matched: emergency sub-patterns first, then doctor
sub-patterns, else the rule's configured default. -/
def overrideDecision (text : String) (r : OverrideRule) : String :=
  if r.emergency.any (fun p => findUnnegated p text) then "emergency"
  else if r.doctor.any (fun p => findUnnegated p text) then "doctor"
  else r.dflt

/-- The scan of `_apply_symptom_overrides` over a rule table: the first
rule whose detector regex matches decides; later rules are ignored. -/
def applyOverridesList : List OverrideRule → String → Option String
  | [], _ => none
  | r :: rs, text =>
    if (reSearch (reOf r.term) text.data).isSome then some (overrideDecision text r)
    else applyOverridesList rs text

/-- `_apply_symptom_overrides`. -/
def applySymptomOverrides (text : String) : Option String :=
  applyOverridesList SYMPTOM_OVERRIDES text

/-- Temperature emergency threshold check of `_has_emergency`
(`C ≥ 40.0 or F ≥ 104.0`). -/
def tempEmergSignal (text : String) : Bool :=
  let t := extractTemp text
  (match t.1 with | some c => decide (c ≥ 40) | none => false)
  || (match t.2 with | some f => decide (f ≥ 104) | none => false)

/-- SpO2 emergency threshold check of `_has_emergency` (`spo2 < 90`). -/
def spo2EmergSignal (text : String) : Bool :=
  match extractSpo2 text with
  | some v => decide (v < 90)
  | none => false

/-- Heart-rate emergency threshold check (`hr ≥ 130`). -/
def hrEmergSignal (text : String) : Bool :=
  match extractHr text with
  | some v => decide (v ≥ 130)
  | none => false

/-- Blood-pressure emergency check: hypotension (`sys < 90 or dia < 60`)
or hypertensive crisis (`sys ≥ 180 or dia ≥ 120`). -/
def bpEmergSignal (text : String) : Bool :=
  let b := extractBp text
  (match b.1 with | some s => decide (s < 90) | none => false)
  || (match b.2 with | some d => decide (d < 60) | none => false)
  || (match b.1 with | some s => decide (s ≥ 180) | none => false)
  || (match b.2 with | some d => decide (d ≥ 120) | none => false)

/-- Glucose emergency check (`glu ≥ 400 or glu ≤ 55`). -/
def gluEmergSignal (text : String) : Bool :=
  match extractGlucose text with
  | some g => decide (g ≥ 400) || decide (g ≤ 55)
  | none => false

/-- `_has_emergency`: numeric thresholds first, then the negation-aware
global emergency patterns. -/
def hasEmergency (text : String) : Bool :=
  if tempEmergSignal text then true
  else if spo2EmergSignal text then true
  else if hrEmergSignal text then true
  else if bpEmergSignal text then true
  else if gluEmergSignal text then true
  else containsAnyUnnegated EMERGENCY_PATTERNS text

/-- Temperature moderate threshold check of `_has_moderate`
(`C ≥ 38.5 or F ≥ 101.5`; the thresholds are written with `mkRat`
because the library scientific-literal coercion is not kernel-reducible). -/
def tempModSignal (text : String) : Bool :=
  let t := extractTemp text
  (match t.1 with | some c => decide (c ≥ mkRat 385 10) | none => false)
  || (match t.2 with | some f => decide (f ≥ mkRat 1015 10) | none => false)

/-- SpO2 moderate band check (`90 ≤ spo2 ≤ 93`). -/
def spo2ModSignal (text : String) : Bool :=
  match extractSpo2 text with
  | some v => decide (90 ≤ v) && decide (v ≤ 93)
  | none => false

/-- Heart-rate moderate band check (`110 ≤ hr < 130`). -/
def hrModSignal (text : String) : Bool :=
  match extractHr text with
  | some v => decide (110 ≤ v) && decide (v < 130)
  | none => false

/-- Blood-pressure moderate band check (`160 ≤ sys < 180 or 100 ≤ dia < 120`). -/
def bpModSignal (text : String) : Bool :=
  let b := extractBp text
  (match b.1 with | some s => decide (160 ≤ s) && decide (s < 180) | none => false)
  || (match b.2 with | some d => decide (100 ≤ d) && decide (d < 120) | none => false)

/-- Glucose moderate band check (`300 ≤ glu < 400 or 56 ≤ glu ≤ 70`). -/
def gluModSignal (text : String) : Bool :=
  match extractGlucose text with
  | some g => (decide (300 ≤ g) && decide (g < 400)) || (decide (56 ≤ g) && decide (g ≤ 70))
  | none => false

/-- `_has_moderate`: numeric moderate bands, symptom duration, then the
negation-aware global moderate patterns. -/
def hasModerate (text : String) : Bool :=
  if tempModSignal text then true
  else if spo2ModSignal text then true
  else if hrModSignal text then true
  else if bpModSignal text then true
  else if gluModSignal text then true
  else if durationDaysGt3 text then true
  else containsAnyUnnegated MODERATE_PATTERNS text

/-- The input normalization of `_decide_triage`: lower-case, then rewrite
the duration phrasings `"3+ days"`, `">3d"`, `"> 3 days"`. -/
def normalizeText (s : String) : String :=
  pyReplace (pyReplace (pyReplace (pyLower s) "3+ days" "more than 3 days") ">3d" "4d")
    "> 3 days" "more than 3 days"

/-- `_decide_triage`: global emergency, then symptom overrides, then
global moderate, else self-care. -/
def decideTriage (s : String) : String :=
  let text := normalizeText s
  if hasEmergency text then "emergency"
  else
    match applySymptomOverrides text with
    | some ov => ov
    | none => if hasModerate text then "doctor" else "self-care"

/-- JSON-like values: the structurally arbitrary payload the external
generative model may produce. -/
inductive JVal where
  | jnull
  | jbool (b : Bool)
  | jnum (q : ℚ)
  | jstr (s : String)
  | jarr (xs : List JVal)
  | jobj (fields : List (String × JVal))

mutual

/-- Python `str(...)` on a payload value.  Strings pass through unchanged
(the only case the source's fields normally hit); container and numeric
rendering is approximated, which no claim observes. -/
def pyStr : JVal → String
  | .jnull => "None"
  | .jbool b => if b then "True" else "False"
  | .jnum q => toString q
  | .jstr s => s
  | .jarr xs => "[" ++ String.intercalate ", " (pyStrList xs) ++ "]"
  | .jobj fs => "\x7b" ++ String.intercalate ", " (pyStrFields fs) ++ "\x7d"

/-- Rendering of each element of a payload list. -/
def pyStrList : List JVal → List String
  | [] => []
  | x :: xs => pyStr x :: pyStrList xs

/-- Rendering of each field of a payload object. -/
def pyStrFields : List (String × JVal) → List String
  | [] => []
  | f :: fs => (f.1 ++ ": " ++ pyStr f.2) :: pyStrFields fs

end

/-- Python `s or d` for strings: `d` when `s` is empty (falsy). -/
def strOr (s d : String) : String :=
  if s = "" then d else s

/-- Dictionary lookup with default (`payload.get(k, d)`). -/
def jGet (fields : List (String × JVal)) (k : String) (d : JVal) : JVal :=
  match fields.find? (fun f => f.1 = k) with
  | some f => f.2
  | none => d

/-- Python `float(...)` applied to a payload value, `none` when it raises
(the `except` branch of `_clamp_confidence`).  String parsing is restricted
to plain decimal literals, the shape the model emits. -/
def pyFloat : JVal → Option ℚ
  | .jnum q => some q
  | .jbool b => some (if b then 1 else 0)
  | .jstr s =>
    let core : List Char → Option ℚ := fun cs =>
      let ip := cs.span (·.isDigit)
      match ip.2 with
      | [] => if ip.1 = [] then none else some (digitsVal ip.1 : ℚ)
      | '.' :: fr =>
        if fr.all (·.isDigit) && !(ip.1 = [] && fr = []) then
          some ((digitsVal ip.1 : ℚ) + (digitsVal fr : ℚ) / (10 : ℚ) ^ fr.length)
        else none
      | _ => none
    (match s.trim.data with
     | '-' :: cs => (core cs).map (fun q => -q)
     | '+' :: cs => core cs
     | cs => core cs)
  | _ => none

/-- `_clamp_confidence`: coerce to float (0.0 on failure), clamp to
[0, 1], round to two decimals (Python's float half-even rounding is
modelled as exact half-up rounding; no claim observes the difference). -/
def clampConfidence (v : JVal) : ℚ :=
  match pyFloat v with
  | none => 0
  | some f => (round (max 0 (min 1 f) * 100) : ℚ) / 100

/-- One normalized condition of `_postprocess`'s output. -/
structure CondOut where
  name : String
  confidence : ℚ
  description : String
  recommendedActions : List String
  whenToSeekCare : String
  deriving Repr, DecidableEq

/-- The fixed output shape of `_postprocess`. -/
structure TriageOut where
  conditions : List CondOut
  triageLevel : String
  disclaimer : String
  deriving Repr, DecidableEq

/-- The fixed disclaimer string attached to every result. -/
def DISCLAIMER : String :=
  "This tool provides educational insights only. Consult a healthcare professional for medical advice."

/-- The fixed fallback condition substituted when no payload condition
survives validation. -/
def FALLBACK_CONDITION : CondOut :=
  { name := "Non-specific viral illness",
    confidence := 0.30,
    description := "A mild viral infection may cause short-term fever, sore throat, and fatigue.",
    recommendedActions := ["Rest", "Hydrate", "Use over-the-counter pain relief as directed"],
    whenToSeekCare := "If symptoms persist beyond 3 days, or severe symptoms develop." }

/-- Normalization of a single payload condition (`none` models the
`continue` on non-dict entries). -/
def normalizeCond (c : JVal) : Option CondOut :=
  match c with
  | .jobj fs =>
    some
      { name := (strOr (pyStr (jGet fs "name" (.jstr ""))) "Unknown").trim,
        confidence := clampConfidence (jGet fs "confidence" (.jnum 0)),
        description := (strOr (pyStr (jGet fs "description" (.jstr ""))) "No description available.").trim,
        recommendedActions :=
          (let actions := match jGet fs "recommendedActions" (.jarr []) with
            | .jarr xs => xs
            | _ => []
          ((actions.map (fun a => (pyStr a).trim)).filter (fun s => s ≠ "")).take 6),
        whenToSeekCare := (strOr (pyStr (jGet fs "whenToSeekCare" (.jstr ""))) "If symptoms worsen or persist.").trim }
  | _ => none

/-- `_postprocess`: repair the payload's condition list, then attach the
orchestrator's triage decision and the fixed disclaimer, discarding any
severity or disclaimer the payload itself carried. -/
def postprocess (payload : List (String × JVal)) (symptomsText : String) : TriageOut :=
  let conditions := match jGet payload "conditions" (.jarr []) with
    | .jarr xs => xs
    | _ => []
  let normalized := (conditions.take 3).filterMap normalizeCond
  { conditions := if normalized = [] then [FALLBACK_CONDITION] else normalized,
    triageLevel := decideTriage symptomsText,
    disclaimer := DISCLAIMER }

/-- `infer_conditions_from_symptoms`, with the external generative call
abstracted into the parsed payload it yields: every path of the source
(successful parse or the fallback payload of the `except` branch) routes
that payload through `_postprocess` with the raw symptom text. -/
def inferConditionsFromSymptoms (modelPayload : List (String × JVal))
    (symptomsText : String) : TriageOut :=
  postprocess modelPayload symptomsText

/-- The ordered triage levels (`self-care < doctor < emergency`). -/
inductive TLevel where
  | selfCare
  | doctor
  | emergency
  deriving Repr, DecidableEq

/-- Numeric rank of a level in the severity order. -/
def TLevel.rank : TLevel → Nat
  | .selfCare => 0
  | .doctor => 1
  | .emergency => 2

/-- Maximum of two levels in the severity order. -/
def lmax (a b : TLevel) : TLevel :=
  if a.rank < b.rank then b else a

/-- The string label of a level. -/
def TLevel.toLabel : TLevel → String
  | .selfCare => "self-care"
  | .doctor => "doctor"
  | .emergency => "emergency"

/-- The level named by a label (defaulting to self-care). -/
def levelOf (s : String) : TLevel :=
  if s = "emergency" then .emergency
  else if s = "doctor" then .doctor
  else .selfCare

/-- The decision formula asserted by claim C5: the maximum, in the severity
order, of all per-check partial decisions — the global emergency evaluation,
the symptom-override result, and the global moderate evaluation.  Defined
from the claim's words, for comparison with `decideTriage`. -/
def c5MaxOfParts (s : String) : String :=
  let text := normalizeText s
  (lmax
    (lmax (if hasEmergency text then .emergency else .selfCare)
      (match applySymptomOverrides text with
       | some l => levelOf l
       | none => .selfCare))
    (if hasModerate text then .doctor else .selfCare)).toLabel

/-- The duration check under claim C9's "first match wins; only the first
determines the extracted value" reading: only the first `DAYS_RE` match is
consulted.  Defined from the claim's words, for comparison with the
source's `_duration_days_gt_3`, which scans every match. -/
def durationGt3FirstMatchOnly (text : String) : Bool :=
  (match (reFinditer (reOf DAYS_RE) text.data).head? with
   | some m =>
     match capZ text "val" m with
     | some v => decide (3 < v)
     | none => false
   | none => false)
  || pyContains text "fever > 3 days"
  || pyContains text "more than 3 days"
  || pyContains text "over 3 days"

set_option maxRecDepth 1000000 in
/-- Every pattern string of the source's tables parses in the regex
fragment implemented here, so `reOf` never falls back to its `eps`
default. -/
theorem all_source_patterns_compile :
    ((NEGATIONS ++ EMERGENCY_PATTERNS ++ MODERATE_PATTERNS
        ++ [tokenPat, TEMP_C_RE, TEMP_F_RE, SPO2_RE, HR_RE, BP_RE, GLUCOSE_RE, DAYS_RE]
        ++ SYMPTOM_OVERRIDES.map (·.term)
        ++ (SYMPTOM_OVERRIDES.map (·.emergency)).flatten
        ++ (SYMPTOM_OVERRIDES.map (·.doctor)).flatten).all
      (fun p => (parseRe p).isSome)) = true := by decide

/-- `re.search` is the head of `re.finditer`: the leftmost match. -/
theorem reSearch_eq_finditer_head (e : Re) (text : List Char) :
    reSearch e text = (reFinditer e text).head? := by
  unfold reFinditer finditerFrom
  have hd : dropTo text 0 = (none, text) := rfl
  rw [hd]
  cases h : scanFrom e 0 none text <;> simp [reSearch, h]

/-- The emergency level absorbs under the severity maximum. -/
theorem lmax_emergency_left (x : TLevel) : lmax .emergency x = .emergency := by
  cases x <;> rfl

/-- The self-care level is neutral on the left of the severity maximum. -/
theorem lmax_selfCare_left (x : TLevel) : lmax .selfCare x = x := by
  cases x <;> rfl

/-- `applyOverridesList` returns the decision of the first rule whose
detector matches, and `none` when no detector matches. -/
theorem applyOverridesList_eq_find (rules : List OverrideRule) (t : String) :
    applyOverridesList rules t =
      (rules.find? (fun r => (reSearch (reOf r.term) t.data).isSome)).map
        (overrideDecision t) := by
  induction rules with
  | nil => rfl
  | cons r rs ih =>
    cases h : (reSearch (reOf r.term) t.data).isSome with
    | true => simp [applyOverridesList, h, List.find?_cons_of_pos]
    | false => simp [applyOverridesList, h, List.find?_cons_of_neg, ih]

/-- Any level produced by the override scan is one of the three labels,
provided every table default is `self-care` or `doctor`. -/
theorem applyOverridesList_label (rules : List OverrideRule) (t l : String)
    (hd : rules.all (fun r => r.dflt = "self-care" || r.dflt = "doctor") = true)
    (h : applyOverridesList rules t = some l) :
    l = "emergency" ∨ l = "doctor" ∨ l = "self-care" := by
  induction rules with
  | nil => simp [applyOverridesList] at h
  | cons r rs ih =>
    rw [List.all_cons, Bool.and_eq_true] at hd
    rw [applyOverridesList] at h
    by_cases hc : (reSearch (reOf r.term) t.data).isSome = true
    · rw [if_pos hc] at h
      have hl : overrideDecision t r = l := Option.some.inj h
      rw [overrideDecision] at hl
      split_ifs at hl
      · exact Or.inl hl.symm
      · exact Or.inr (Or.inl hl.symm)
      · rcases Bool.or_eq_true_iff.mp hd.1 with h1 | h1
        · exact Or.inr (Or.inr (hl.symm.trans (of_decide_eq_true h1)))
        · exact Or.inr (Or.inl (hl.symm.trans (of_decide_eq_true h1)))
    · rw [if_neg hc] at h
      exact ih hd.2 h

/-- Specialization of `applyOverridesList_label` to the source's table. -/
theorem applySymptomOverrides_label (t l : String)
    (h : applySymptomOverrides t = some l) :
    l = "emergency" ∨ l = "doctor" ∨ l = "self-care" :=
  applyOverridesList_label SYMPTOM_OVERRIDES t l (by decide) h

/-- C1: the classifier follows strict precedence — whenever the global
emergency evaluation (numeric emergency thresholds or global emergency
text patterns) signals on the normalized text, the result is
`"emergency"`, regardless of the override table or moderate checks; only
otherwise is the override table consulted, then the global moderate
checks, then the `"self-care"` default. -/
theorem triage_precedence_strict (s : String) :
    (hasEmergency (normalizeText s) = true → decideTriage s = "emergency")
    ∧ (hasEmergency (normalizeText s) = false →
        ∀ l, applySymptomOverrides (normalizeText s) = some l → decideTriage s = l)
    ∧ (hasEmergency (normalizeText s) = false →
        applySymptomOverrides (normalizeText s) = none →
        hasModerate (normalizeText s) = true → decideTriage s = "doctor")
    ∧ (hasEmergency (normalizeText s) = false →
        applySymptomOverrides (normalizeText s) = none →
        hasModerate (normalizeText s) = false → decideTriage s = "self-care") := by
  refine ⟨fun h => ?_, fun h l hl => ?_, fun h hn hm => ?_, fun h hn hm => ?_⟩ <;>
    simp [decideTriage, h, *]

/-- Witness for C1 at a concrete emergency input: `"spo2 80"` trips the
SpO2 numeric emergency threshold, and the classifier returns
`"emergency"`. -/
theorem triage_precedence_strict_witness :
    hasEmergency (normalizeText "spo2 80") = true
    ∧ decideTriage "spo2 80" = "emergency" :=
  ⟨by decide, (triage_precedence_strict "spo2 80").1 (by decide)⟩

/-- C2: the severity label of the normalizer's output never depends on the
generative model's payload — any two payloads yield the same
`triageLevel` for the same symptom text, and that level is exactly the
orchestrator's decision on the symptom text. -/
theorem severity_independent_of_payload (p1 p2 : List (String × JVal)) (s : String) :
    (postprocess p1 s).triageLevel = decideTriage s
    ∧ (postprocess p1 s).triageLevel = (postprocess p2 s).triageLevel :=
  ⟨rfl, rfl⟩

/-- C6: the negation test returns true exactly when one of the fixed cue
patterns matches the lower-cased, space-joined text of the (at most) 6
tokens immediately preceding the match index, clamped at the sequence
start; a match at token index 0 has an empty window and is never
negated. -/
theorem negation_window_test (tokens : List String) (i : Nat) :
    (isNegated tokens i =
      NEGATIONS.any (fun n => (reSearch (reOf n) (negWindow tokens i).data).isSome))
    ∧ negWindow tokens i =
        pyLower (String.intercalate " "
          ((tokens.drop (i - NEGATION_WINDOW)).take (i - (i - NEGATION_WINDOW))))
    ∧ isNegated tokens 0 = false :=
  ⟨rfl, rfl, by
    have h : isNegated tokens 0 = isNegated [] 0 := rfl
    rw [h]; decide⟩

/-- C10: the normalizer's output carries the exact fixed disclaimer
string, for every payload and every symptom text, regardless of any
disclaimer the payload itself contained. -/
theorem disclaimer_always_fixed (p : List (String × JVal)) (s : String) :
    (postprocess p s).disclaimer = DISCLAIMER
    ∧ (inferConditionsFromSymptoms p s).disclaimer = DISCLAIMER
    ∧ DISCLAIMER =
      "This tool provides educational insights only. Consult a healthcare professional for medical advice." :=
  ⟨rfl, rfl, rfl⟩

set_option maxRecDepth 1000000 in
/-- C3: the classifier is total over all string inputs and always returns
exactly one of the three literal labels; in particular the empty string
resolves to `"self-care"`. -/
theorem classifier_total_three_labels (s : String) :
    (decideTriage s = "emergency" ∨ decideTriage s = "doctor"
      ∨ decideTriage s = "self-care")
    ∧ decideTriage "" = "self-care" := by
  constructor
  · rw [decideTriage]
    cases h : hasEmergency (normalizeText s)
    · cases ho : applySymptomOverrides (normalizeText s) with
      | some l =>
        have h3 := applySymptomOverrides_label _ _ ho
        simpa using h3
      | none => cases hm : hasModerate (normalizeText s) <;> simp [hm]
    · simp
  · decide

set_option maxRecDepth 1000000 in
/-- C4: the override stage is decided by the first table rule whose
detector matches — its emergency sub-patterns (unnegated) give
`"emergency"`, else its doctor sub-patterns give `"doctor"`, else its
configured default — and no detector match yields no override; the
urinary-symptoms default makes `"pain with urination"` classify as
`"doctor"`. -/
theorem override_first_rule_wins :
    (∀ t, applySymptomOverrides t =
      (SYMPTOM_OVERRIDES.find? (fun r => (reSearch (reOf r.term) t.data).isSome)).map
        (overrideDecision t))
    ∧ decideTriage "pain with urination" = "doctor" :=
  ⟨fun t => applyOverridesList_eq_find SYMPTOM_OVERRIDES t, by decide⟩

set_option maxRecDepth 1000000 in
/-- C5 counterexample: on `"headache and ear pain"` the code returns
`"self-care"` (the headache override's default), although the global
moderate evaluation is true (`ear pain`), so the claimed
maximum-of-all-partial-decisions — which is `"doctor"` here — differs
from the final decision: the override result masks the higher moderate
partial decision. -/
theorem final_decision_below_max_of_parts :
    decideTriage "headache and ear pain" = "self-care"
    ∧ c5MaxOfParts "headache and ear pain" = "doctor"
    ∧ hasModerate (normalizeText "headache and ear pain") = true :=
  ⟨by decide, by decide, by decide⟩

set_option maxRecDepth 1000000 in
/-- C5 (amended): the final decision is the severity maximum of the
global-emergency partial decision and of the symptom-override result when
one fires — the global moderate partial decision only enters the maximum
when no override rule fires.  In that form no lower finding downgrades a
higher partial decision. -/
theorem decision_is_override_preempting_max (s : String) :
    decideTriage s =
      (lmax (if hasEmergency (normalizeText s) then .emergency else .selfCare)
        (match applySymptomOverrides (normalizeText s) with
         | some l => levelOf l
         | none =>
           if hasModerate (normalizeText s) then .doctor else .selfCare)).toLabel := by
  rw [decideTriage]
  cases h : hasEmergency (normalizeText s)
  · cases ho : applySymptomOverrides (normalizeText s) with
    | some l =>
      rcases applySymptomOverrides_label _ _ ho with h1 | h1 | h1 <;>
        subst h1 <;> simp [h, ho] <;> decide
    | none =>
      cases hm : hasModerate (normalizeText s) <;> simp [h, ho, hm] <;> decide
  · simp [h, lmax_emergency_left]
    rfl

set_option maxRecDepth 1000000 in
/-- C7 counterexample: no global emergency pattern matches the bare input
`"chest pain"` — the global emergency evaluation does not signal, and the
input classifies as `"self-care"`, contradicting the claim that an
emergency pattern fires on it. -/
theorem bare_chest_pain_no_emergency_pattern :
    containsAnyUnnegated EMERGENCY_PATTERNS (normalizeText "chest pain") = false
    ∧ hasEmergency (normalizeText "chest pain") = false
    ∧ decideTriage "chest pain" = "self-care" :=
  ⟨by decide, by decide, by decide⟩

set_option maxRecDepth 1000000 in
/-- C7 (amended): on `"severe chest pain"` the emergency pattern
`\b(crushing|severe)\s+chest pain\b` fires, so the global emergency
evaluation signals; on `"no severe chest pain"` that same pattern does
not fire, because its trigger token lies within the 6-token negation
window containing `"no"`. -/
theorem severe_chest_pain_negation_respected :
    ("\\b(crushing|severe)\\s+chest pain\\b" ∈ EMERGENCY_PATTERNS)
    ∧ findUnnegated "\\b(crushing|severe)\\s+chest pain\\b" "severe chest pain" = true
    ∧ hasEmergency "severe chest pain" = true
    ∧ findUnnegated "\\b(crushing|severe)\\s+chest pain\\b" "no severe chest pain" = false
    ∧ hasEmergency "no severe chest pain" = false :=
  ⟨by decide, by decide, by decide, by decide, by decide⟩

set_option maxRecDepth 1000000 in
/-- C8: the SpO2 band mapping — `"oxygen saturation 88%"` classifies as
`"emergency"` (value below 90), `"oxygen saturation 92%"` classifies as
`"doctor"` (value in the inclusive 90–93 band), and on
`"oxygen saturation 97%"` the extracted value 97 signals at neither
level. -/
theorem spo2_band_mapping :
    decideTriage "oxygen saturation 88%" = "emergency"
    ∧ decideTriage "oxygen saturation 92%" = "doctor"
    ∧ extractSpo2 "oxygen saturation 97%" = some 97
    ∧ spo2EmergSignal "oxygen saturation 97%" = false
    ∧ spo2ModSignal "oxygen saturation 97%" = false :=
  ⟨by decide, by decide, by decide, by decide, by decide⟩

set_option maxRecDepth 1000000 in
/-- C9 counterexample: on
`"fever for 2 days and cough for 5 days"` the duration check signals true
although the first `DAYS_RE` match has value 2 (not above 3) and no
literal duration phrase occurs — the second match decides, so the
symptom-duration extractor is not first-match-wins as claimed (the
claim-faithful `durationGt3FirstMatchOnly` disagrees with the code). -/
theorem duration_scan_not_first_match_only :
    durationDaysGt3 "fever for 2 days and cough for 5 days" = true
    ∧ durationGt3FirstMatchOnly "fever for 2 days and cough for 5 days" = false
    ∧ (reFinditer (reOf DAYS_RE) "fever for 2 days and cough for 5 days".data).map
        (capZ "fever for 2 days and cough for 5 days" "val") = [some 2, some 5] :=
  ⟨by decide, by decide, by decide⟩

/-- C9 (amended): each vital-sign extractor returns an optional numeric
value determined by the first (leftmost) regex match and yields no value
rather than an error when no match exists; the symptom-duration check, by
contrast, is a boolean that scans all day-count matches and signals when
any of them exceeds 3 (or a literal duration phrase occurs). -/
theorem extractors_first_match_duration_any (t : String) :
    extractSpo2 t = ((reFinditer (reOf SPO2_RE) t.data).head?).bind (capQ t "val")
    ∧ extractHr t = ((reFinditer (reOf HR_RE) t.data).head?).bind (capQ t "val")
    ∧ extractGlucose t = ((reFinditer (reOf GLUCOSE_RE) t.data).head?).bind (capZ t "val")
    ∧ (extractTemp t).1 = ((reFinditer (reOf TEMP_C_RE) t.data).head?).bind (capQ t "val")
    ∧ (extractTemp t).2 = ((reFinditer (reOf TEMP_F_RE) t.data).head?).bind (capQ t "val")
    ∧ extractBp t =
        (match (reFinditer (reOf BP_RE) t.data).head? with
         | none => (none, none)
         | some m => (capZ t "sys" m, capZ t "dia" m))
    ∧ durationDaysGt3 t =
        (((reFinditer (reOf DAYS_RE) t.data).any (fun m =>
            match capZ t "val" m with
            | some v => decide (3 < v)
            | none => false))
          || pyContains t "fever > 3 days" || pyContains t "more than 3 days"
          || pyContains t "over 3 days") := by
  refine ⟨?_, ?_, ?_, ?_, ?_, ?_, rfl⟩ <;>
    simp [extractSpo2, extractHr, extractGlucose, extractTemp, extractBp,
      ← reSearch_eq_finditer_head]
